import Mathlib

/-!
Verification of JustBot-Reloaded's listener-registration and message-chain
core against its specification.  The Python modules under scrutiny are
`apis/message_chain.py` and `jbot/__init__.py` (class `BotApplication`);
collaborators that are only imported (Element, ListenerManager, the
matcher classes, the adapter's send) are modelled from the specification
and marked as such in their doc comments.
-/

/-- Modelled from the spec: an `Element` (class `JustBot.apis.element.Element`,
not in the excerpt) is an atomic unit of message content; "each variant knows
how to render itself to wire-code and to display text. Immutable once
constructed."  We model it by its two renderings. -/
structure Element where
  code : String
  display : String
deriving DecidableEq

def Element.to_code (e : Element) : String := e.code

def Element.as_display (e : Element) : String := e.display

/-- The attribute store of the Python class `MessageChain`
(`apis/message_chain.py`).  All three attributes are set on the CLASS, never
on an instance: `__new__` assigns `cls._strings` and `cls._result` and
returns `cls` itself, and `create` assigns `cls.elements`.  `none` models an
attribute that has not been assigned yet (reading it raises
`AttributeError`); the bare annotation `cls.elements: List[Element]` in
`__new__` performs no assignment. -/
structure MessageChainState where
  _strings : Option (List String)
  _result : Option String
  elements : Option (List Element)
deriving DecidableEq

/-- The class state before any construction: no attribute assigned. -/
def MessageChainState.init : MessageChainState :=
  { _strings := none, _result := none, elements := none }

/-- `MessageChain.__new__(cls, strings)`: stores `strings`, initialises
`_result` to the empty string and appends each string in order, then returns
`cls` — so the "constructed chain" is the class itself and every
construction overwrites the shared state.  `cls.elements` is only annotated,
not assigned. -/
def MessageChain.new (st : MessageChainState) (strings : List String) : MessageChainState :=
  { st with
    _strings := some strings,
    _result := some (strings.foldl (fun r s => r ++ s) "") }

/-- `MessageChain.create(cls, elements)`: assigns `cls.elements`, renders
each element with `to_code()` in order, and delegates to `cls(strings)`
(i.e. `__new__`). -/
def MessageChain.create (st : MessageChainState) (elements : List Element) : MessageChainState :=
  MessageChain.new { st with elements := some elements } (elements.map Element.to_code)

/-- `MessageChain.to_code(cls)`: returns the cached `cls._result`. -/
def MessageChain.to_code (st : MessageChainState) : Option String :=
  st._result

/-- `MessageChain.as_display(cls)`: `''.join([element.as_display() for
element in cls.elements])`; reading `cls.elements` raises `AttributeError`
(modelled as `none`) when `create` has never run. -/
def MessageChain.as_display (st : MessageChainState) : Option String :=
  match st.elements with
  | none => none
  | some es => some (String.join (es.map Element.as_display))

/-- A log entry produced through `self.logger` / `self.adapter.logger`
(`jbot/__init__.py`), tagged with its level. -/
inductive Log where
  | info (msg : String)
  | warning (msg : String)
  | error (msg : String)
deriving DecidableEq

/-- A Python handler function as `BotApplication.on`'s wrapper sees it: its
identity, and whether `asyncio.iscoroutinefunction` accepts it. -/
structure Handler where
  id : Nat
  is_async : Bool
deriving DecidableEq

/-- `Listener(event, target)`: binds one event type (numbered) to one
handler (`utils.Listener`, constructed in `BotApplication.on`). -/
structure Listener where
  event : Nat
  handler : Handler
deriving DecidableEq

/-- The kind of attachment the `mapping` dict in
`BotApplication.__set_decorator` dispatches on: its keys `'matcher'`,
`'param_convert'`, `'role'`, `'nlp'`. -/
inductive AttachKind where
  | matcher
  | param_convert
  | role
  | nlp
deriving DecidableEq

/-- Modelled from the spec: the attachment payloads handed to
`__set_decorator` — `CommandMatcher`/`KeywordMatcher` hold "one or more
trigger strings, a `match_all_width` boolean, and a set of Element variant
types" (their classes are outside the excerpt); `param_convert` carries a
target type; `role` a permission set plus optional fallback; `nlp` a
keyword set. -/
inductive AttachVal where
  | command_matcher (command : List String) (match_all_width : Bool) (ignore : List String)
  | keyword_matcher (keyword : List String) (match_all_width : Bool) (ignore : List String)
  | plain_matcher (name : String)
  | convert_type (ty : String)
  | role_todo (role : List String) (todo : Option Nat)
  | nlp_binding (keywords : List String)
deriving DecidableEq

/-- Modelled from the spec: the `ListenerManager` (`utils`, not in the
excerpt) "owns mapping from event-type to ordered sequence of Listener,
ordered by ascending priority"; `entries` records every `join` call in
order with its priority, and `attachments` the successful `set_*` calls. -/
structure LMState where
  entries : List (Int × Listener)
  attachments : List (Handler × AttachKind × AttachVal)
deriving DecidableEq

/-- A fresh `ListenerManager()`: nothing registered, nothing attached. -/
def LMState.init : LMState := { entries := [], attachments := [] }

/-- Modelled from the spec: `join(listener, priority)` "inserts listener
into the ordered sequence for its event type(s)"; we record the call. -/
def LMState.join (lm : LMState) (l : Listener) (priority : Int) : LMState :=
  { lm with entries := lm.entries ++ [(priority, l)] }

/-- Whether some `join` call registered this handler identity. -/
def LMState.registered (lm : LMState) (target : Handler) : Bool :=
  lm.entries.any (fun pl => pl.2.handler == target)

/-- Modelled from the spec: `setMatcher/setParamConvert/setRole/setNlp
(handlerIdentity, value) -> success: bool` — "looks up the listener(s)
whose handler identity matches; if none found, returns failure …; if
found, mutates the attachment". -/
def LMState.setAttachment (lm : LMState) (k : AttachKind) (target : Handler)
    (value : AttachVal) : Bool × LMState :=
  if lm.registered target then
    (true, { lm with attachments := lm.attachments ++ [(target, k, value)] })
  else
    (false, lm)

def LMState.set_matcher (lm : LMState) (target : Handler) (value : AttachVal) : Bool × LMState :=
  lm.setAttachment AttachKind.matcher target value

def LMState.set_param_convert (lm : LMState) (target : Handler) (value : AttachVal) : Bool × LMState :=
  lm.setAttachment AttachKind.param_convert target value

def LMState.set_role (lm : LMState) (target : Handler) (value : AttachVal) : Bool × LMState :=
  lm.setAttachment AttachKind.role target value

def LMState.set_nlp (lm : LMState) (target : Handler) (value : AttachVal) : Bool × LMState :=
  lm.setAttachment AttachKind.nlp target value

/-- The event argument of `BotApplication.on`: a single event type, a list,
or a tuple of event types. -/
inductive EventArg where
  | single (e : Nat)
  | list (es : List Nat)
  | tuple (es : List Nat)
deriving DecidableEq

/-- The `register` log line of `BotApplication.on`'s wrapper.  Note the
source passes the `multi` flag swapped: the single-event path calls
`register(True, …)` and the multi-event path `register(False, …)`. -/
def registerLog (multi : Bool) (name : String) : Log :=
  Log.info ("注册监听器" ++ (if multi then " (多个事件)" else "") ++ ": " ++ name)

/-- The `for e in ev: join(e)` loop of `BotApplication.on`'s wrapper: one
`join` call per event type, in order, all at the same priority and with the
same handler. -/
def joinAll (lm : LMState) (es : List Nat) (p : Int) (f : Handler) : LMState :=
  es.foldl (fun acc e => acc.join ⟨e, f⟩ p) lm

/-- `BotApplication.on(event, priority)` immediately followed by applying
the returned value to `target`, as `@bot.on(…)` does.  With `priority > 0`
the returned wrapper registers (per event type for a list/tuple, unwrapping
a singleton *list* first) when `target` is async, or only warns when it is
not, and returns `target`.  With `priority <= 0` the method logs an error
and falls off the end, returning `None`; decorating with `None` then raises
`TypeError`.  (The `type(priority) is not int` guard is statically satisfied
here since `priority : Int`.)  Result: the manager state, the logs, and
either the decorated function or the raised exception. -/
def onDecorate (lm : LMState) (event : EventArg) (priority : Int) (target : Handler) :
    LMState × List Log × Except String Handler :=
  if priority > 0 then
    if target.is_async then
      let ev := match event with
        | EventArg.list [e] => EventArg.single e
        | _ => event
      match ev with
      | EventArg.single e =>
          (lm.join ⟨e, target⟩ priority,
           [registerLog true (toString e)],
           Except.ok target)
      | EventArg.list es =>
          (joinAll lm es priority target,
           [registerLog false (String.intercalate " & " (es.map toString))],
           Except.ok target)
      | EventArg.tuple es =>
          (joinAll lm es priority target,
           [registerLog false (String.intercalate " & " (es.map toString))],
           Except.ok target)
    else
      (lm, [Log.warning "无法注册监听器: 已忽略函数, 它必须是异步函数!"], Except.ok target)
  else
    (lm, [Log.error "无法注册监听器: 优先级不能小于 0!"],
     Except.error "TypeError: NoneType object is not callable")

/-- The warning `__set_decorator` logs when the `set_*` call reports
failure. -/
def attachWarn (desc : String) : Log :=
  Log.warning ("无法设置" ++ desc ++ ": 函数不是一个监听器, 请检查参数及装饰顺序!")

/-- `BotApplication.__set_decorator(value, type, desc)` applied to
`target`: dispatches through the `mapping` dict to the corresponding
`listener_manager.set_*`, logs a warning when the flag is falsy, and always
returns `target`. -/
def setDecorator (lm : LMState) (value : AttachVal) (ty : AttachKind) (desc : String)
    (target : Handler) : LMState × List Log × Handler :=
  let fl :=
    match ty with
    | AttachKind.matcher => lm.set_matcher target value
    | AttachKind.param_convert => lm.set_param_convert target value
    | AttachKind.role => lm.set_role target value
    | AttachKind.nlp => lm.set_nlp target value
  if fl.1 then (fl.2, [], target) else (fl.2, [attachWarn desc], target)

/-- `BotApplication.command`: builds a `CommandMatcher` and delegates to
`__set_decorator(…, 'matcher', '消息匹配器')`. -/
def BotApplication.command (lm : LMState) (command : List String) (match_all_width : Bool)
    (ignore : List String) (target : Handler) : LMState × List Log × Handler :=
  setDecorator lm (AttachVal.command_matcher command match_all_width ignore)
    AttachKind.matcher "消息匹配器" target

/-- `BotApplication.keyword`: builds a `KeywordMatcher` and delegates to
`__set_decorator(…, 'matcher', '消息匹配器')`. -/
def BotApplication.keyword (lm : LMState) (keyword : List String) (match_all_width : Bool)
    (ignore : List String) (target : Handler) : LMState × List Log × Handler :=
  setDecorator lm (AttachVal.keyword_matcher keyword match_all_width ignore)
    AttachKind.matcher "消息匹配器" target

/-- `BotApplication.matcher` (deprecated): delegates to
`__set_decorator(matcher, 'matcher', '消息匹配器')`. -/
def BotApplication.matcher (lm : LMState) (m : String) (target : Handler) :
    LMState × List Log × Handler :=
  setDecorator lm (AttachVal.plain_matcher m) AttachKind.matcher "消息匹配器" target

/-- `BotApplication.param_convert`: delegates to
`__set_decorator(…, 'param_convert', '参数转换类型')`. -/
def BotApplication.param_convert (lm : LMState) (ty : String) (target : Handler) :
    LMState × List Log × Handler :=
  setDecorator lm (AttachVal.convert_type ty) AttachKind.param_convert "参数转换类型" target

/-- `BotApplication.role`: delegates to
`__set_decorator({'role': role, 'todo': todo}, 'role', '权限组')`. -/
def BotApplication.role (lm : LMState) (roles : List String) (todo : Option Nat)
    (target : Handler) : LMState × List Log × Handler :=
  setDecorator lm (AttachVal.role_todo roles todo) AttachKind.role "权限组" target

/-- `BotApplication.nlp`: delegates to
`__set_decorator({'c': c, 'keywords': keywords, 'params': params}, 'nlp',
'自然语言处理')`. -/
def BotApplication.nlp (lm : LMState) (keywords : List String) (target : Handler) :
    LMState × List Log × Handler :=
  setDecorator lm (AttachVal.nlp_binding keywords) AttachKind.nlp "自然语言处理" target

/-- The `message` argument of `BotApplication.send_msg`: a constructed
MessageChain (which, `__new__` returning `cls`, is the class itself and
carries no state of its own), a bare string, a bare Element, a list or a
tuple of Elements, or anything else. -/
inductive Message where
  | chainCls
  | str (s : String)
  | element (e : Element)
  | list (es : List Element)
  | tuple (es : List Element)
  | other
deriving DecidableEq

/-- The collaborators `send_msg` needs: the adapter's transmission
(`self.adapter.send_message(target, chain)`, whose class is outside the
excerpt — an arbitrary operation that completes or raises), and, modelled
from the spec, the "per-adapter lookup of its 'Plain text' Element variant,
used when a handler sends a bare string" (the subclass scan over
`Element.__subclasses__()`). -/
structure SendCtx where
  adapterSend : Nat → MessageChainState → Except String Unit
  plainElement : String → Element

/-- Modelled from the spec: `MessageChain.create` applied to a single bare
Element (as `send_msg` does for the string and single-element cases)
normalizes it into the chain of that one element — "elements will be
automatically converted to a MessageChain"; the iteration of `create` over
the lone Element object is decided by the Element class, which is outside
the excerpt. -/
def createSingle (st : MessageChainState) (e : Element) : MessageChainState :=
  MessageChain.create st [e]

/-- The `TypeError` Python raises when `MessageChain.create`, which takes
exactly one positional `elements` argument, is called as `create(*message)`
with `n ≠ 1` unpacked arguments. -/
def createArityError (n : Nat) : String :=
  if n = 0 then "TypeError: create() missing 1 required positional argument"
  else "TypeError: create() takes 2 positional arguments but " ++ toString (n + 1)
    ++ " were given"

/-- The effects of the `try` body of `send_msg` up to the point it returns
or raises: the resulting chain state, the logs written, the chains handed
to `adapter.send_message` (with their target), and the exception raised,
if any. -/
structure SendAttempt where
  st : MessageChainState
  logs : List Log
  handoffs : List (Nat × MessageChainState)
  raised : Option String
deriving DecidableEq

/-- `await send(chain)`, i.e. `self.adapter.send_message(target, chain)`:
the chain is handed to the adapter, which completes or raises. -/
def sendOnce (ctx : SendCtx) (target : Nat) (chain : MessageChainState) : SendAttempt :=
  { st := chain, logs := [], handoffs := [(target, chain)],
    raised :=
      match ctx.adapterSend target chain with
      | Except.ok _ => none
      | Except.error e => some e }

/-- The `try` body of `BotApplication.send_msg`: dispatch on `type(message)`.
A MessageChain goes to the adapter as is (being the class, its renderable
state is the current one); a string is wrapped in the adapter's Plain
element and passed through `create`; a bare Element likewise; a list or
tuple is unpacked as `MessageChain.create(*message)`, which only a
singleton survives — any other length raises `TypeError` before any send;
any other type only logs the type-error warning. -/
def send_msg_body (ctx : SendCtx) (st : MessageChainState) (target : Nat)
    (message : Message) : SendAttempt :=
  match message with
  | Message.chainCls => sendOnce ctx target st
  | Message.str s => sendOnce ctx target (createSingle st (ctx.plainElement s))
  | Message.element e => sendOnce ctx target (createSingle st e)
  | Message.list es =>
      match es with
      | [e] => sendOnce ctx target (createSingle st e)
      | _ => { st := st, logs := [], handoffs := [], raised := some (createArityError es.length) }
  | Message.tuple es =>
      match es with
      | [e] => sendOnce ctx target (createSingle st e)
      | _ => { st := st, logs := [], handoffs := [], raised := some (createArityError es.length) }
  | Message.other =>
      { st := st, logs := [Log.warning "无法发送消息: 参数 `message` 类型错误!"],
        handoffs := [], raised := none }

/-- The error line `send_msg`'s `except` clause logs before re-raising. -/
def sendErrLog (e : String) : Log :=
  Log.error ("无法发送消息: `" ++ e ++ "`")

deriving instance DecidableEq for Except

/-- The outcome of a full `send_msg` call. -/
structure SendResult where
  st : MessageChainState
  logs : List Log
  handoffs : List (Nat × MessageChainState)
  result : Except String Unit
deriving DecidableEq

/-- The `except Exception as e` clause of `send_msg`: on a raised
exception it logs `'无法发送消息: %s' % str(e)` and re-raises the same
exception (`raise`); otherwise the `try` body's effects stand. -/
def exceptClause (a : SendAttempt) : SendResult :=
  match a.raised with
  | some e => { st := a.st, logs := a.logs ++ [sendErrLog e],
                handoffs := a.handoffs, result := Except.error e }
  | none => { st := a.st, logs := a.logs, handoffs := a.handoffs,
              result := Except.ok () }

/-- `BotApplication.send_msg(target, message)`: the `try` body wrapped in
the log-and-re-raise `except` clause. -/
def send_msg (ctx : SendCtx) (st : MessageChainState) (target : Nat)
    (message : Message) : SendResult :=
  exceptClause (send_msg_body ctx st target message)

/-! ## Shared helper lemmas -/

theorem exceptClause_handoffs (a : SendAttempt) :
    (exceptClause a).handoffs = a.handoffs := by
  cases h : a.raised <;> simp [exceptClause, h]

theorem exceptClause_raise (a : SendAttempt) (e : String) (h : a.raised = some e) :
    (exceptClause a).result = Except.error e ∧ sendErrLog e ∈ (exceptClause a).logs := by
  simp [exceptClause, h]

/-! ## Claims about MessageChain -/

/-- C1: the spec says a chain is never mutated after construction, its
`to_code()` stable.  In the code every attribute lives on the class and
`__new__` returns the class, so constructing a second chain overwrites the
first one's state: after `MessageChain(['a'])` then `MessageChain(['b'])`,
the first chain (the class) renders `'b'`, not its own `'a'`. -/
theorem messagechain_construction_mutates_prior_chain :
    MessageChain.to_code (MessageChain.new MessageChainState.init ["a"]) = some "a" ∧
    MessageChain.to_code
        (MessageChain.new (MessageChain.new MessageChainState.init ["a"]) ["b"])
      = some "b" ∧
    MessageChain.to_code
        (MessageChain.new (MessageChain.new MessageChainState.init ["a"]) ["b"])
      ≠ MessageChain.to_code (MessageChain.new MessageChainState.init ["a"]) := by
  refine ⟨?_, ?_, ?_⟩ <;> decide

/-- C2: `create(E)` assigns `cls.elements` and then delegates to
`cls(strings)` with the pre-rendered strings `[e.to_code() for e in E]`, so
it yields the same wire form as building directly from those strings, and
`to_code()` is their in-order concatenation. -/
theorem create_matches_fromStrings (st : MessageChainState) (E : List Element) :
    MessageChain.create st E
      = MessageChain.new { st with elements := some E } (E.map Element.to_code) ∧
    MessageChain.to_code (MessageChain.create st E)
      = MessageChain.to_code (MessageChain.new st (E.map Element.to_code)) ∧
    MessageChain.to_code (MessageChain.create st E)
      = some (String.join (E.map Element.to_code)) := by
  refine ⟨rfl, rfl, ?_⟩
  simp [MessageChain.create, MessageChain.new, MessageChain.to_code, String.join]

/-- C3: building a chain from a string sequence `S` (the `__new__` /
fromStrings path) caches exactly the in-order concatenation of `S`; the
empty sequence is legal and yields the empty string; and `to_code()` just
returns the cached `_result` without recomputation. -/
theorem fromStrings_to_code (st : MessageChainState) (S : List String) :
    MessageChain.to_code (MessageChain.new st S) = some (String.join S) ∧
    MessageChain.to_code (MessageChain.new st []) = some "" ∧
    MessageChain.to_code (MessageChain.new st S) = (MessageChain.new st S)._result := by
  refine ⟨?_, rfl, rfl⟩
  simp [MessageChain.new, MessageChain.to_code, String.join]

/-- C4: the spec wants `as_display()` on a strings-only chain to be a
distinct failure, never display text of foreign elements.  On a fresh class
it does raise (`cls.elements` unset), but `cls.elements` survives from any
earlier `create`: a chain built from `['y']` after
`create([element with display 'X'])` renders wire form `'y'` yet
`as_display()` returns `'X'` — display text of an element that does not
belong to this chain. -/
theorem as_display_returns_foreign_elements :
    MessageChain.as_display (MessageChain.new MessageChainState.init ["y"]) = none ∧
    MessageChain.as_display
        (MessageChain.new
          (MessageChain.create MessageChainState.init [⟨"[code]", "X"⟩]) ["y"])
      = some "X" ∧
    MessageChain.to_code
        (MessageChain.new
          (MessageChain.create MessageChainState.init [⟨"[code]", "X"⟩]) ["y"])
      = some "y" := by
  refine ⟨rfl, ?_, ?_⟩ <;> decide

/-- C7: `as_display()` on `create(E)` is exactly the in-order concatenation
of each element's display rendering: `create` stores `E` in `cls.elements`
and `as_display` is `''.join` over it. -/
theorem create_as_display (st : MessageChainState) (E : List Element) :
    MessageChain.as_display (MessageChain.create st E)
      = some (String.join (E.map Element.as_display)) := rfl

/-! ## Claims about listener registration and attachments -/

/-- C5: the spec says a priority `<= 0` registration is reported and
skipped without crashing and the handler stays usable.  In the code
`on` logs the error but then returns `None` (no `return` in the `else`
branch), so applying the "decorator" to the handler raises
`TypeError: 'NoneType' object is not callable` — applying it does crash,
although no listener is added.  The non-async half of the claim does hold:
a valid `on(...)` applied to a non-async function only warns and returns
the function unchanged. -/
theorem on_nonpositive_priority_decoration_raises :
    onDecorate LMState.init (EventArg.single 1) 0 ⟨2, true⟩
      = (LMState.init, [Log.error "无法注册监听器: 优先级不能小于 0!"],
         Except.error "TypeError: NoneType object is not callable") ∧
    onDecorate LMState.init (EventArg.single 1) (-3) ⟨2, true⟩
      = (LMState.init, [Log.error "无法注册监听器: 优先级不能小于 0!"],
         Except.error "TypeError: NoneType object is not callable") ∧
    onDecorate LMState.init (EventArg.single 1) 5 ⟨2, false⟩
      = (LMState.init, [Log.warning "无法注册监听器: 已忽略函数, 它必须是异步函数!"],
         Except.ok ⟨2, false⟩) := by
  refine ⟨?_, ?_, ?_⟩ <;> decide

/-- C6: applying any attachment decorator (`command` / `keyword` /
`matcher` / `param_convert` / `role` / `nlp`) to a function that was never
registered via `on` makes the `set_*` call report failure, so
`__set_decorator` logs the warning, attaches nothing (the manager state is
unchanged) and returns the original function. -/
theorem attach_unregistered_noop (lm : LMState) (f : Handler)
    (h : lm.registered f = false) :
    (∀ v ty desc, setDecorator lm v ty desc f = (lm, [attachWarn desc], f)) ∧
    (∀ cmd maw ign, BotApplication.command lm cmd maw ign f
      = (lm, [attachWarn "消息匹配器"], f)) ∧
    (∀ kw maw ign, BotApplication.keyword lm kw maw ign f
      = (lm, [attachWarn "消息匹配器"], f)) ∧
    (∀ m, BotApplication.matcher lm m f = (lm, [attachWarn "消息匹配器"], f)) ∧
    (∀ ty, BotApplication.param_convert lm ty f = (lm, [attachWarn "参数转换类型"], f)) ∧
    (∀ rs td, BotApplication.role lm rs td f = (lm, [attachWarn "权限组"], f)) ∧
    (∀ kws, BotApplication.nlp lm kws f = (lm, [attachWarn "自然语言处理"], f)) := by
  have hset : ∀ v ty desc, setDecorator lm v ty desc f = (lm, [attachWarn desc], f) := by
    intro v ty desc
    cases ty <;>
      simp [setDecorator, LMState.set_matcher, LMState.set_param_convert,
        LMState.set_role, LMState.set_nlp, LMState.setAttachment, h]
  exact ⟨hset,
    fun cmd maw ign => hset _ _ _,
    fun kw maw ign => hset _ _ _,
    fun m => hset _ _ _,
    fun ty => hset _ _ _,
    fun rs td => hset _ _ _,
    fun kws => hset _ _ _⟩

/-- Witness for C6 at a fresh manager and a concrete function. -/
theorem attach_unregistered_noop_witness :
    LMState.init.registered ⟨0, true⟩ = false ∧
    BotApplication.command LMState.init ["/ping"] false [] ⟨0, true⟩
      = (LMState.init, [attachWarn "消息匹配器"], ⟨0, true⟩) :=
  ⟨rfl, (attach_unregistered_noop LMState.init ⟨0, true⟩ rfl).2.1 ["/ping"] false []⟩

theorem joinAll_eq (es : List Nat) (p : Int) (f : Handler) :
    ∀ lm : LMState,
      joinAll lm es p f
        = { lm with entries := lm.entries ++ es.map (fun e => (p, ⟨e, f⟩)) } := by
  induction es with
  | nil => intro lm; simp [joinAll]
  | cons a t ih =>
      intro lm
      have hstep : joinAll lm (a :: t) p f = joinAll (lm.join ⟨a, f⟩ p) t p f := rfl
      rw [hstep, ih]
      simp [LMState.join, List.append_assoc]

/-- C9: decorating an async handler with `on(events, p)`, `p > 0`, for a
list or tuple of `n ≥ 2` distinct event types performs one `join` per event
type, in order, all at priority `p` and all with the same handler, and
returns the handler. -/
theorem on_multi_event_joins (lm : LMState) (es : List Nat) (p : Int) (f : Handler)
    (hn : 2 ≤ es.length) (hd : es.Nodup) (hp : 0 < p) (ha : f.is_async = true) :
    onDecorate lm (EventArg.list es) p f
      = ({ lm with entries := lm.entries ++ es.map (fun e => (p, ⟨e, f⟩)) },
         [registerLog false (String.intercalate " & " (es.map toString))],
         Except.ok f) ∧
    onDecorate lm (EventArg.tuple es) p f
      = ({ lm with entries := lm.entries ++ es.map (fun e => (p, ⟨e, f⟩)) },
         [registerLog false (String.intercalate " & " (es.map toString))],
         Except.ok f) := by
  match es, hn with
  | a :: b :: t, _ =>
      constructor <;> simp [onDecorate, hp, ha, joinAll_eq]

/-- Witness for C9: two event types at priority 5. -/
theorem on_multi_event_joins_witness :
    2 ≤ ([1, 2] : List Nat).length ∧ ([1, 2] : List Nat).Nodup ∧ (0 : Int) < 5 ∧
    (Handler.mk 7 true).is_async = true ∧
    onDecorate LMState.init (EventArg.list [1, 2]) 5 ⟨7, true⟩
      = ({ entries := [(5, ⟨1, ⟨7, true⟩⟩), (5, ⟨2, ⟨7, true⟩⟩)], attachments := [] },
         [registerLog false "1 & 2"],
         Except.ok ⟨7, true⟩) :=
  ⟨by decide, by decide, by decide, rfl,
    (on_multi_event_joins LMState.init [1, 2] 5 ⟨7, true⟩
      (by decide) (by decide) (by decide) rfl).1⟩

/-! ## Claims about send_msg -/

/-- C8: whenever the underlying `adapter.send_message` raises, `send_msg`'s
`except` clause logs the error at the send boundary and re-raises the very
same exception to its caller. -/
theorem send_msg_logs_and_reraises (ctx : SendCtx) (st : MessageChainState)
    (target : Nat) (msg : Message) (e : String)
    (hfail : ∀ t c, ctx.adapterSend t c = Except.error e)
    (hsent : (send_msg ctx st target msg).handoffs ≠ []) :
    (send_msg ctx st target msg).result = Except.error e ∧
    sendErrLog e ∈ (send_msg ctx st target msg).logs := by
  cases msg with
  | chainCls => exact exceptClause_raise _ e (by simp [send_msg_body, sendOnce, hfail])
  | str s => exact exceptClause_raise _ e (by simp [send_msg_body, sendOnce, hfail])
  | element el => exact exceptClause_raise _ e (by simp [send_msg_body, sendOnce, hfail])
  | list es =>
      cases es with
      | nil => exact absurd rfl hsent
      | cons a t =>
          cases t with
          | nil => exact exceptClause_raise _ e (by simp [send_msg_body, sendOnce, hfail])
          | cons b t2 => exact absurd rfl hsent
  | tuple es =>
      cases es with
      | nil => exact absurd rfl hsent
      | cons a t =>
          cases t with
          | nil => exact exceptClause_raise _ e (by simp [send_msg_body, sendOnce, hfail])
          | cons b t2 => exact absurd rfl hsent
  | other => exact absurd rfl hsent

/-- A send context whose adapter transmission always raises, for the C8
witness. -/
def failCtx : SendCtx :=
  { adapterSend := fun _ _ => Except.error "boom",
    plainElement := fun s => ⟨s, s⟩ }

/-- Witness for C8: a string message over an adapter that raises. -/
theorem send_msg_logs_and_reraises_witness :
    (∀ t c, failCtx.adapterSend t c = Except.error "boom") ∧
    (send_msg failCtx MessageChainState.init 1 (Message.str "hi")).handoffs ≠ [] ∧
    ((send_msg failCtx MessageChainState.init 1 (Message.str "hi")).result
        = Except.error "boom" ∧
      sendErrLog "boom" ∈ (send_msg failCtx MessageChainState.init 1 (Message.str "hi")).logs) :=
  ⟨fun _ _ => rfl, by decide,
    send_msg_logs_and_reraises failCtx MessageChainState.init 1 (Message.str "hi") "boom"
      (fun _ _ => rfl) (by decide)⟩

/-- C10: a list or tuple of `n ≠ 1` Elements given to `send_msg` is
unpacked as `MessageChain.create(*message)`; `create` takes exactly one
positional sequence argument, so the call raises `TypeError`, which the
send boundary logs and re-raises, and nothing is handed to the adapter.
A singleton list or tuple is the only shape that reaches the adapter. -/
theorem send_msg_list_arity (ctx : SendCtx) (st : MessageChainState) (target : Nat)
    (es : List Element) (h : es.length ≠ 1) :
    (send_msg ctx st target (Message.list es)).handoffs = [] ∧
    (send_msg ctx st target (Message.list es)).result
      = Except.error (createArityError es.length) ∧
    sendErrLog (createArityError es.length)
      ∈ (send_msg ctx st target (Message.list es)).logs ∧
    (send_msg ctx st target (Message.tuple es)).handoffs = [] ∧
    (send_msg ctx st target (Message.tuple es)).result
      = Except.error (createArityError es.length) ∧
    (∀ el, (send_msg ctx st target (Message.list [el])).handoffs
      = [(target, createSingle st el)]) ∧
    (∀ el, (send_msg ctx st target (Message.tuple [el])).handoffs
      = [(target, createSingle st el)]) := by
  have hone : ∀ el : Element,
      (send_msg ctx st target (Message.list [el])).handoffs
        = [(target, createSingle st el)] := by
    intro el
    have hrw : send_msg ctx st target (Message.list [el])
        = exceptClause (sendOnce ctx target (createSingle st el)) := rfl
    rw [hrw, exceptClause_handoffs]
    rfl
  have honeT : ∀ el : Element,
      (send_msg ctx st target (Message.tuple [el])).handoffs
        = [(target, createSingle st el)] := by
    intro el
    have hrw : send_msg ctx st target (Message.tuple [el])
        = exceptClause (sendOnce ctx target (createSingle st el)) := rfl
    rw [hrw, exceptClause_handoffs]
    rfl
  cases es with
  | nil =>
      refine ⟨rfl, rfl, ?_, rfl, rfl, hone, honeT⟩
      simp [send_msg, send_msg_body, exceptClause]
  | cons a t =>
      cases t with
      | nil => exact absurd rfl h
      | cons b t2 =>
          refine ⟨rfl, rfl, ?_, rfl, rfl, hone, honeT⟩
          simp [send_msg, send_msg_body, exceptClause]

/-- A send context whose adapter transmission always succeeds, for the C10
witness. -/
def okCtx : SendCtx :=
  { adapterSend := fun _ _ => Except.ok (),
    plainElement := fun s => ⟨s, s⟩ }

/-- Witness for C10: a two-element list is rejected before any handoff. -/
theorem send_msg_list_arity_witness :
    ([⟨"a", "A"⟩, ⟨"b", "B"⟩] : List Element).length ≠ 1 ∧
    (send_msg okCtx MessageChainState.init 1
        (Message.list [⟨"a", "A"⟩, ⟨"b", "B"⟩])).handoffs = [] ∧
    (send_msg okCtx MessageChainState.init 1
        (Message.list [⟨"a", "A"⟩, ⟨"b", "B"⟩])).result
      = Except.error (createArityError 2) :=
  ⟨by decide,
    (send_msg_list_arity okCtx MessageChainState.init 1
      [⟨"a", "A"⟩, ⟨"b", "B"⟩] (by decide)).1,
    (send_msg_list_arity okCtx MessageChainState.init 1
      [⟨"a", "A"⟩, ⟨"b", "B"⟩] (by decide)).2.1⟩
